import Mathlib

/-
Verification of the arazu deploy tool (arazu.py) against its specification.

The program is a linear orchestration script: load a YAML config, check the
source working tree is clean, capture the source HEAD sha, run the build
command, create a temporary staging directory, initialize a git repository
there, copy the build output in, commit it, and (unless dry-run) push and
clean up.  We embed it shallowly: every interaction with the outside world
(filesystem checks, subprocess exit codes, the stdout of git rev-parse,
the contents of the build folder, the temp-dir name, the current time) is an
input supplied by a `World` record, and the run is a pure function from the
world and the CLI arguments to an outcome, an event trace (every log line,
print, shell command, and filesystem mutation, in program order) and the
relevant final filesystem facts.
-/

namespace Arazu

/-- A parsed configuration document.  The YAML loader produces a dictionary;
each field here is `some v` when the corresponding key is present in the
document and `none` when the key is absent (a lookup of an absent key raises
`KeyError` in the source). -/
structure ConfigDoc where
  source_repo : Option String
  source_branch : Option String
  deploy_repo : Option String
  deploy_branch : Option String
  build_command : Option String
  build_folder : Option String
  commit_template : Option String
deriving DecidableEq, Repr

/-- Dictionary lookup `config[field]` on the seven keys used by the program;
`none` models a `KeyError`. -/
def ConfigDoc.get (c : ConfigDoc) (field : String) : Option String :=
  if field = "source-repo" then c.source_repo
  else if field = "source-branch" then c.source_branch
  else if field = "deploy-repo" then c.deploy_repo
  else if field = "deploy-branch" then c.deploy_branch
  else if field = "build-command" then c.build_command
  else if field = "build-folder" then c.build_folder
  else if field = "commit-template" then c.commit_template
  else none

def DEFAULT_CONFIG_PATH : String := "arazu.yaml"

def COMMIT_MESSAGE_FILEPATH : String := ".arazu_commit_message"

/-- The raw text of the shipped configuration template, exactly as the
`CONFIG_TEMPLATE_RAW` string in the source (`init` writes this verbatim). -/
def CONFIG_TEMPLATE_RAW : String :=
  "# Arazu Config - check this in to source control\n\n"
  ++ "# where the source code lives\n"
  ++ "source-repo: \"fill this in - no branch name\"\n"
  ++ "source-branch: master\n\n"
  ++ "# where the deploy code lives\n"
  ++ "deploy-repo: \"fill this in - no branch name\"\n"
  ++ "# if github, use master for organization sites, gh-pages for project\n"
  ++ "deploy-branch: gh-pages\n\n"
  ++ "# build command - this gets called to make your build\n"
  ++ "build-command: \"fill this in\"\n\n"
  ++ "# folder with build output - this gets commited into the deploy repo\n"
  ++ "build-folder: \"fill this in\"\n\n"
  ++ "# format for commit message - can include {date} and {sha}\n"
  ++ "commit-template: |\n"
  ++ "  Deploy {date}\n\n"
  ++ "  SHA: {sha}\n"

/-- `config_template = yaml.load(CONFIG_TEMPLATE_RAW)`: the template document
as the YAML loader parses it (the `|` block scalar keeps its inner newlines
and a single trailing newline). -/
def config_template : ConfigDoc where
  source_repo := some "fill this in - no branch name"
  source_branch := some "master"
  deploy_repo := some "fill this in - no branch name"
  deploy_branch := some "gh-pages"
  build_command := some "fill this in"
  build_folder := some "fill this in"
  commit_template := some ("Deploy {date}\n\nSHA: {sha}\n")

/-- Python exceptions that the script can raise internally. -/
inductive PyErr where
  | abortError (msg : String)
  | keyError (key : String)
deriving DecidableEq, Repr

/-- How a run of a command terminates: fall through normally, terminate the
process via `sys.exit code`, or propagate an uncaught Python exception (which
also makes the interpreter exit with code 1). -/
inductive Outcome where
  | ok
  | sysExit (code : Nat)
  | exc (e : PyErr)
deriving DecidableEq, Repr

/-- One observable event of a run, in program order: log lines at their
levels, `print` output, `subprocess.call(..., shell=True)` commands,
`subprocess.Popen` argv invocations, and direct filesystem mutations.
`rmtree` records the attempted recursive deletion of the staging directory
(whether it succeeds is the world's `rmtreeOk`). -/
inductive Ev where
  | logInfo (msg : String)
  | logDebug (msg : String)
  | logError (msg : String)
  | printOut (msg : String)
  | shell (cmd : String)
  | popen (argv : List String)
  | mkdtemp (path : String)
  | chdir (path : String)
  | writeFile (path : String) (contents : String)
  | unlink (path : String)
  | rmtree (path : String)
deriving DecidableEq, Repr

/-- `abort(message)`: log the message with the "ERROR - " marker and raise
`AbortError(message)`. -/
def abort (message : String) : List Ev × PyErr :=
  ([Ev.logError ("ERROR - " ++ message)], PyErr.abortError message)

/-- `print` calls guarded by `if not quiet`: emits the messages unless the
condition `suppressed` holds. -/
def prints_if (emit : Bool) (msgs : List String) : List Ev :=
  if emit then msgs.map Ev.printOut else []

/-- `call_or_fail(command)`: run the command through the shell; on a non-zero
exit code call `sys.exit(1)`.  The exit code of the external command is an
input. -/
def call_or_fail (command : String) (exitCode : Nat) : List Ev × Option Outcome :=
  ([Ev.shell command], if exitCode ≠ 0 then some (Outcome.sysExit 1) else none)

/-- The field list passed to `validate_not_default` by `parse_config`, in
source order. -/
def required_fields : List String :=
  ["build-command", "build-folder", "source-repo", "deploy-repo"]

/-- `validate_not_default(config, fields)`: for each field in order, compare
`config[field]` with `config_template[field]`; on equality, `abort` naming
that field.  A lookup of an absent key is a `KeyError`. -/
def validate_not_default (config : ConfigDoc) (fields : List String) :
    List Ev × Option PyErr :=
  match fields with
  | [] => ([], none)
  | field :: rest =>
    match config.get field with
    | none => ([], some (PyErr.keyError field))
    | some v =>
      match config_template.get field with
      | none => ([], some (PyErr.keyError field))
      | some tv =>
        if v = tv then
          let a := abort ("invalid config - you must set the " ++ field ++ " value")
          (a.1, some a.2)
        else
          validate_not_default config rest

/-- External facts `parse_config` depends on: whether the path exists, whether
opening succeeds, and what the YAML parse yields (`none` = parse exception). -/
structure ConfigWorld where
  pathExists : Bool
  openOk : Bool
  parseResult : Option ConfigDoc
deriving DecidableEq, Repr

/-- `Arazu.parse_config(config_file_path)`: existence check, open, YAML parse,
then `validate_not_default` on the four required fields.  Returns the events
it emitted and either the error raised or the parsed document that is stored
in `self.config`. -/
def parse_config (w : ConfigWorld) (config_file_path : String) :
    List Ev × Except PyErr ConfigDoc :=
  if !w.pathExists then
    let a := abort ("could not find config file \"" ++ config_file_path ++ "\"")
    (a.1, Except.error a.2)
  else if !w.openOk then
    let a := abort ("failed to open config file \"" ++ config_file_path ++ "\"")
    (a.1, Except.error a.2)
  else
    match w.parseResult with
    | none =>
      let a := abort ("failed to parse config file \"" ++ config_file_path ++ "\"")
      (a.1, Except.error a.2)
    | some config =>
      match validate_not_default config required_fields with
      | (t, some e) => (t, Except.error e)
      | (t, none) => (t, Except.ok config)

/-- External facts for `create_config`: whether the target path already
exists and whether the write succeeds. -/
structure InitWorld where
  pathExists : Bool
  writeOk : Bool
deriving DecidableEq, Repr

/-- Result of `create_config`: its events, the file contents written (if
any), and the error raised (if any). -/
structure InitResult where
  events : List Ev
  written : Option String
  err : Option PyErr
deriving DecidableEq, Repr

/-- `Arazu.create_config` (the `init` command): refuse to overwrite an
existing config file, otherwise write `CONFIG_TEMPLATE_RAW` to the default
path and, unless quiet, print the two hints. -/
def create_config (w : InitWorld) (quiet : Bool) : InitResult :=
  if w.pathExists then
    let a := abort ("config file \"" ++ DEFAULT_CONFIG_PATH
      ++ "\" already exists - delete it to continue")
    { events := a.1, written := none, err := some a.2 }
  else if !w.writeOk then
    let a := abort ("failed to write config file \"" ++ DEFAULT_CONFIG_PATH ++ "\"")
    { events := [Ev.writeFile DEFAULT_CONFIG_PATH CONFIG_TEMPLATE_RAW] ++ a.1,
      written := none, err := some a.2 }
  else
    { events := [Ev.writeFile DEFAULT_CONFIG_PATH CONFIG_TEMPLATE_RAW] ++
        prints_if (!quiet)
          ["new config template at \"%s\"! " ++ DEFAULT_CONFIG_PATH,
           "fill it out and run `arazu build`"],
      written := some CONFIG_TEMPLATE_RAW, err := none }

/-- Replace every non-overlapping occurrence of `pat` by `rep`, scanning left
to right; `fuel` bounds the recursion (one unit per character consumed). -/
def replace_fuel (pat rep : List Char) : Nat → List Char → List Char
  | 0, s => s
  | _ + 1, [] => []
  | fuel + 1, c :: rest =>
    if (c :: rest).take pat.length = pat ∧ pat.length ≠ 0 then
      rep ++ replace_fuel pat rep fuel ((c :: rest).drop pat.length)
    else
      c :: replace_fuel pat rep fuel rest

/-- Replace every occurrence of `pat` in `s` by `rep` (the semantics of
Python `str.replace`, left to right, non-overlapping). -/
def string_replace (s pat rep : String) : String :=
  ⟨replace_fuel pat.data rep.data s.data.length s.data⟩

/-- `str.format(sha=..., date=...)` on the commit template: substitute the
two placeholders. -/
def format_commit (tmpl sha date : String) : String :=
  string_replace (string_replace tmpl "{sha}" sha) "{date}" date

/-- Whether a character counts as whitespace for Python `str.strip`. -/
def is_space (c : Char) : Bool :=
  c = ' ' || c = '\t' || c = '\n' || c = '\x0d' || c = '\x0b' || c = '\x0c'

/-- Python `str.strip()`: remove whitespace from both ends. -/
def strip (s : String) : String :=
  ⟨(((s.data.dropWhile is_space).reverse.dropWhile is_space).reverse)⟩

/-- Whether the string starts with the character `c`. -/
def starts_with_char (c : Char) (s : String) : Bool :=
  match s.data with
  | [] => false
  | d :: _ => d = c

/-- Whether the string ends with the character `c`. -/
def ends_with_char (c : Char) (s : String) : Bool :=
  match s.data.getLast? with
  | none => false
  | some d => d = c

/-- `os.path.join(a, b)` for the shapes the program uses. -/
def path_join (a b : String) : String :=
  if starts_with_char '/' b then b
  else if a = "" then b
  else if ends_with_char '/' a then a ++ b
  else a ++ "/" ++ b

/-- The entries of `build-folder` matched by the shell glob `*` in
`cp -r <build-folder>/* .`: every top-level entry whose name does not start
with a dot (the shell glob does not match hidden files). -/
def glob_star (entries : List String) : List String :=
  entries.filter (fun e => !starts_with_char '.' e)

/-- CLI arguments relevant to a run. -/
structure Args where
  config : String
  dry_run : Bool
  quiet : Bool
deriving DecidableEq, Repr

/-- External facts a full `deploy` run depends on: the config-file world, the
exit codes of every external command it may run, the stdout of
`git rev-parse HEAD`, the invocation directory, the temp-dir name `mkdtemp`
returns, the top-level entries of the build folder, the current time string,
and whether the final `shutil.rmtree` succeeds. -/
structure World where
  cfg : ConfigWorld
  diffExit : Nat
  revParseLine : String
  buildExit : Nat
  originalPath : String
  deployFolder : String
  buildEntries : List String
  now : String
  initExit : Nat
  remoteAddExit : Nat
  fetchExit : Nat
  checkoutExit : Nat
  checkoutBExit : Nat
  cpExit : Nat
  addExit : Nat
  resetExit : Nat
  commitExit : Nat
  pushExit : Nat
  rmtreeOk : Bool
deriving DecidableEq, Repr

/-- Result of the `try:` block of `deploy` (everything from `git init` to the
final prints/push): its events, how it terminated, the contents of the commit
message marker file still on disk in the staging directory when the block
ends, and the staging-root entries produced by the copy step (if reached). -/
structure TryResult where
  events : List Ev
  result : Outcome
  marker : Option String
  copied : Option (List String)
deriving DecidableEq, Repr

/-- The second half of the `try:` block of `Arazu.deploy`, from the copy of
the build output onward (the code after the branch checkout has succeeded):
`cp -r <build-folder>/* .`, render and write the commit message marker,
`git add .`, `git reset <marker>`, `git commit -F <marker>`, then either the
dry-run report or `git push` plus marker removal, and the final completion
print.  `t5` is the event trace accumulated so far. -/
def deploy_try_tail (w : World) (a : Args) (config : ConfigDoc)
    (latest_commit_sha original_path deploy_branch : String)
    (t5 : List Ev) : TryResult :=
  let deploy_folder := w.deployFolder
  match config.get "build-folder" with
  | none => ⟨t5, Outcome.exc (PyErr.keyError "build-folder"), none, none⟩
  | some bf =>
    let build_folder := path_join original_path bf
    let build_glob := path_join build_folder "*"
    let t6 := t5 ++
      [Ev.logInfo ("copying build output " ++ build_folder ++ " to deploy folder"),
       Ev.shell ("cp -r " ++ build_glob ++ " .")]
    if w.cpExit ≠ 0 then ⟨t6, Outcome.sysExit 1, none, none⟩
    else
      let copied := glob_star w.buildEntries
      match config.get "commit-template" with
      | none =>
        ⟨t6, Outcome.exc (PyErr.keyError "commit-template"), none, some copied⟩
      | some ct =>
        let commit_message := format_commit ct latest_commit_sha w.now
        let t7 := t6 ++
          prints_if (a.dry_run && !a.quiet)
            ["Dry Run - Commit Message: " ++ commit_message] ++
          [Ev.writeFile COMMIT_MESSAGE_FILEPATH commit_message,
           Ev.logInfo "adding changes to deploy repository",
           Ev.shell "git add ."]
        if w.addExit ≠ 0 then
          ⟨t7, Outcome.sysExit 1, some commit_message, some copied⟩
        else
          let t8 := t7 ++ [Ev.shell ("git reset " ++ COMMIT_MESSAGE_FILEPATH)]
          if w.resetExit ≠ 0 then
            ⟨t8, Outcome.sysExit 1, some commit_message, some copied⟩
          else
            let t9 := t8 ++
              [Ev.logInfo "creating new deploy commit",
               Ev.shell ("git commit -F " ++ COMMIT_MESSAGE_FILEPATH)]
            if w.commitExit ≠ 0 then
              ⟨t9, Outcome.sysExit 1, some commit_message, some copied⟩
            else
              if a.dry_run then
                let t10 := t9 ++
                  prints_if (!a.quiet)
                    ["Dry Run Complete!",
                     "Deploy folder is: " ++ deploy_folder ++ "\"",
                     "Delete the deploy folder when finished"] ++
                  prints_if (!a.quiet)
                    ["Deploy complete for commit  " ++ latest_commit_sha]
                ⟨t10, Outcome.ok, some commit_message, some copied⟩
              else
                let t10 := t9 ++
                  [Ev.logInfo "pushing latest build",
                   Ev.shell ("git push deploy " ++ deploy_branch)]
                if w.pushExit ≠ 0 then
                  ⟨t10, Outcome.sysExit 1, some commit_message, some copied⟩
                else
                  let t11 := t10 ++
                    [Ev.logInfo "deleting temp commit message file",
                     Ev.unlink COMMIT_MESSAGE_FILEPATH] ++
                    prints_if (!a.quiet)
                      ["Deploy complete for commit  " ++ latest_commit_sha]
                  ⟨t11, Outcome.ok, none, some copied⟩

/-- The body of the `try:` block of `Arazu.deploy`, step by step in source
order: `git init`, `git remote add deploy`, `git fetch deploy`, checkout (or
create) the deploy branch, then `deploy_try_tail` for the rest.  Failures of
`call_or_fail` commands are `sys.exit(1)`; lookups of absent config keys are
`KeyError`s. -/
def deploy_try (w : World) (a : Args) (config : ConfigDoc)
    (latest_commit_sha original_path : String) : TryResult :=
  let t0 : List Ev := [Ev.logInfo "setting up repository", Ev.shell "git init"]
  if w.initExit ≠ 0 then
    ⟨t0, Outcome.sysExit 1, none, none⟩
  else
    let t1 := t0 ++ [Ev.logInfo "adding deploy remote"]
    match config.get "deploy-repo" with
    | none => ⟨t1, Outcome.exc (PyErr.keyError "deploy-repo"), none, none⟩
    | some deploy_repo =>
      let t2 := t1 ++ [Ev.shell ("git remote add deploy " ++ deploy_repo)]
      if w.remoteAddExit ≠ 0 then ⟨t2, Outcome.sysExit 1, none, none⟩
      else
        match config.get "deploy-branch" with
        | none => ⟨t2, Outcome.exc (PyErr.keyError "deploy-branch"), none, none⟩
        | some deploy_branch =>
          let t3 := t2 ++ [Ev.logInfo ("setting branch \"" ++ deploy_branch ++ "\""),
                           Ev.shell "git fetch deploy"]
          if w.fetchExit ≠ 0 then ⟨t3, Outcome.sysExit 1, none, none⟩
          else
            let t4 := t3 ++ [Ev.shell ("git checkout " ++ deploy_branch)]
            let t5 :=
              if w.checkoutExit ≠ 0 then
                t4 ++ [Ev.logInfo ("creating deploy branch \"" ++ deploy_branch ++ "\""),
                       Ev.shell ("git checkout -b " ++ deploy_branch)]
              else t4
            if w.checkoutExit ≠ 0 ∧ w.checkoutBExit ≠ 0 then
              ⟨t5, Outcome.sysExit 1, none, none⟩
            else
              deploy_try_tail w a config latest_commit_sha original_path
                deploy_branch t5

/-- Full observable result of a `deploy` run. -/
structure RunResult where
  outcome : Outcome
  trace : List Ev
  stagingCreated : Bool
  stagingExists : Bool
  markerOnDisk : Option String
  entriesAfterCopy : Option (List String)
  buildInvocations : Nat
deriving DecidableEq, Repr

/-- The tail of `Arazu.deploy` from `tempfile.mkdtemp` on: create and enter
the staging directory, run the `try:` block, catch `AbortError` (logging the
generic message and falling through — any other termination propagates), and
in the `finally:` clause always attempt `shutil.rmtree(deploy_folder)`,
logging (non-fatally) when the deletion fails.  `builds` counts build-command
invocations so far. -/
def deploy_rest (w : World) (a : Args) (config : ConfigDoc)
    (latest_commit_sha : String) (t : List Ev) (builds : Nat) : RunResult :=
  let original_path := w.originalPath
  let deploy_folder := w.deployFolder
  let t5 := t ++ [Ev.mkdtemp deploy_folder,
                  Ev.logDebug ("creating and changing to deploy folder " ++ deploy_folder),
                  Ev.chdir deploy_folder]
  let r := deploy_try w a config latest_commit_sha original_path
  let after : Outcome × List Ev :=
    match r.result with
    | Outcome.exc (PyErr.abortError _) =>
      (Outcome.ok,
       r.events ++ [Ev.logError "Something went wrong and arazu aborted your deploy."])
    | o => (o, r.events)
  let fin := [Ev.logInfo ("deleting temporary deploy folder " ++ deploy_folder),
              Ev.rmtree deploy_folder] ++
    (if w.rmtreeOk then []
     else [Ev.logError "Failed to delete deploy folder. Please delete it by hand.",
           Ev.logError deploy_folder])
  ⟨after.1, t5 ++ after.2 ++ fin, true, !w.rmtreeOk,
   (if w.rmtreeOk then none else r.marker), r.copied, builds⟩

/-- `Arazu.deploy`: parse the config, check for local changes via
`git diff --no-ext-diff --quiet --exit-code` (aborting when dirty), read the
source HEAD sha from `git rev-parse HEAD` (its stdout is taken as-is and
stripped; the exit status is never checked), run the build command through
`call_or_fail` when it is non-empty, then hand over to the staging phase. -/
def deploy (w : World) (a : Args) : RunResult :=
  match parse_config w.cfg a.config with
  | (t, Except.error e) =>
    ⟨Outcome.exc e, t, false, false, none, none, 0⟩
  | (t, Except.ok config) =>
    let t1 := t ++ [Ev.logInfo "checking for local changes",
                    Ev.shell "git diff --no-ext-diff --quiet --exit-code"]
    if w.diffExit ≠ 0 then
      let ab := abort ("arazu cannot deploy with local changes "
        ++ "- commit everything and try again")
      ⟨Outcome.exc ab.2, t1 ++ ab.1, false, false, none, none, 0⟩
    else
      let t2 := t1 ++ [Ev.logInfo "generating commit message",
                       Ev.popen ["git", "rev-parse", "HEAD"]]
      let latest_commit_sha := strip w.revParseLine
      match config.get "build-command" with
      | none => ⟨Outcome.exc (PyErr.keyError "build-command"), t2, false, false, none, none, 0⟩
      | some build_command =>
        let t3 := t2 ++
          [Ev.logInfo ("running build command \"" ++ build_command ++ "\"")]
        if build_command ≠ "" then
          let c := call_or_fail build_command w.buildExit
          match c.2 with
          | some o => ⟨o, t3 ++ c.1, false, false, none, none, 1⟩
          | none => deploy_rest w a config latest_commit_sha (t3 ++ c.1) 1
        else
          deploy_rest w a config latest_commit_sha t3 0

/-- Whether an event is an external effect (a spawned process or a filesystem
mutation) as opposed to printed or logged text. -/
def is_effect (e : Ev) : Bool :=
  match e with
  | Ev.shell _ => true
  | Ev.popen _ => true
  | Ev.mkdtemp _ => true
  | Ev.chdir _ => true
  | Ev.writeFile _ _ => true
  | Ev.unlink _ => true
  | Ev.rmtree _ => true
  | _ => false

/-- The external effects of a trace, in order, with printed/logged text
removed. -/
def effects (t : List Ev) : List Ev := t.filter is_effect

/-- Whether a string starts with the eight characters "ERROR - ". -/
def error_marked (s : String) : Bool :=
  s.data.take 8 = ("ERROR - ").data

/-- Whether a trace contains any printed or logged line carrying the
"ERROR - " marker. -/
def has_error_message (t : List Ev) : Bool :=
  t.any (fun e =>
    match e with
    | Ev.logError s => error_marked s
    | Ev.printOut s => error_marked s
    | _ => false)

/-- Whether an event is an error-level log line. -/
def is_error_log (e : Ev) : Bool :=
  match e with
  | Ev.logError _ => true
  | _ => false

/-- The error-level log lines of a trace, in order. -/
def error_logs (t : List Ev) : List Ev := t.filter is_error_log

/-- The first required field (in the order `validate_not_default` checks
them) whose value in the document equals the template's placeholder. -/
def first_offending (c : ConfigDoc) : Option String :=
  required_fields.find? (fun f => c.get f == config_template.get f)

/-- A fully filled-in, valid configuration document used for concrete runs. -/
def good_config : ConfigDoc where
  source_repo := some "git@example.com:site-src"
  source_branch := some "master"
  deploy_repo := some "git@example.com:site-deploy"
  deploy_branch := some "gh-pages"
  build_command := some "make build"
  build_folder := some "dist"
  commit_template := some ("Deploy {date}\n\nSHA: {sha}\n")

/-- A config world where `arazu.yaml` exists, opens, and parses to
`good_config`. -/
def good_cfg_world : ConfigWorld := ⟨true, true, some good_config⟩

/-- A world in which every external command succeeds. -/
def base_world : World where
  cfg := good_cfg_world
  diffExit := 0
  revParseLine := "0123abcd0123abcd0123abcd0123abcd0123abcd"
  buildExit := 0
  originalPath := "/home/user/site"
  deployFolder := "/tmp/arazu_deployab12"
  buildEntries := ["index.html"]
  now := "2026-10-12 10:00:00.000000"
  initExit := 0
  remoteAddExit := 0
  fetchExit := 0
  checkoutExit := 0
  checkoutBExit := 0
  cpExit := 0
  addExit := 0
  resetExit := 0
  commitExit := 0
  pushExit := 0
  rmtreeOk := true

/-- A document that passes validation but has no `source-branch` key. -/
def c2_doc : ConfigDoc where
  source_repo := some "git@example.com:site-src"
  source_branch := none
  deploy_repo := some "git@example.com:site-deploy"
  deploy_branch := some "gh-pages"
  build_command := some "make build"
  build_folder := some "dist"
  commit_template := some "Deploy {sha}"


/-- A world in which `git rev-parse HEAD` produces no output (resolution of
the source HEAD failed); everything else succeeds. -/
def c3_world : World := { base_world with revParseLine := "" }


/-- A world whose build folder holds a regular file and a hidden file. -/
def c4_world : World := { base_world with buildEntries := ["index.html", ".htaccess"] }


/-- A world where the working tree is dirty. -/
def c5_world : World := { base_world with diffExit := 1 }


/-- A world where the build command exits with code 2. -/
def c6_world : World := { base_world with buildExit := 2 }


/-- A document whose `build-folder` is still the template placeholder. -/
def c7_doc : ConfigDoc := { good_config with build_folder := some "fill this in" }


/-- A world where the final push fails. -/
def c9_world : World := { base_world with pushExit := 1 }


/-- The events `validate_not_default` emits when it succeeds: none. -/
theorem validate_ok_events (c : ConfigDoc) (fields : List String)
    (h : (validate_not_default c fields).2 = none) :
    validate_not_default c fields = ([], none) := by
  induction fields with
  | nil => rfl
  | cons f rest ih =>
    unfold validate_not_default at h ⊢
    rcases hcf : c.get f with _ | v
    · simp [hcf] at h
    · rcases hct : config_template.get f with _ | tv
      · simp [hcf, hct] at h
      · by_cases hv : v = tv
        · simp [hcf, hct, hv] at h
        · simp only [hcf, hct, if_neg hv] at h ⊢
          exact ih h

theorem effects_append (s t : List Ev) :
    effects (s ++ t) = effects s ++ effects t := by
  simp [effects, List.filter_append]

theorem effects_map_printOut (l : List String) :
    effects (l.map Ev.printOut) = [] := by
  induction l with
  | nil => rfl
  | cons h t ih => simp [effects, is_effect]

theorem effects_prints_if (b : Bool) (l : List String) :
    effects (prints_if b l) = [] := by
  cases b
  · rfl
  · simpa [prints_if] using effects_map_printOut l

theorem effects_cons (e : Ev) (t : List Ev) :
    effects (e :: t) = if is_effect e then e :: effects t else effects t := by
  simp [effects, List.filter_cons]

/-- The quiet flag changes none of the tail's observables except printed
text: termination, external effects, the marker file and the copied entries
coincide. -/
theorem deploy_try_tail_quiet (w : World) (p : String) (d : Bool) (config : ConfigDoc)
    (sha op db : String) (t : List Ev) :
    (deploy_try_tail w ⟨p, d, true⟩ config sha op db t).result
      = (deploy_try_tail w ⟨p, d, false⟩ config sha op db t).result ∧
    effects (deploy_try_tail w ⟨p, d, true⟩ config sha op db t).events
      = effects (deploy_try_tail w ⟨p, d, false⟩ config sha op db t).events ∧
    (deploy_try_tail w ⟨p, d, true⟩ config sha op db t).marker
      = (deploy_try_tail w ⟨p, d, false⟩ config sha op db t).marker ∧
    (deploy_try_tail w ⟨p, d, true⟩ config sha op db t).copied
      = (deploy_try_tail w ⟨p, d, false⟩ config sha op db t).copied := by
  unfold deploy_try_tail
  rcases hbf : config.get "build-folder" with _ | bf
  · simp [hbf]
  by_cases hcp : w.cpExit = 0
  case neg => simp [hbf, hcp]
  rcases hct : config.get "commit-template" with _ | ct
  · simp [hbf, hcp, hct]
  by_cases hA : w.addExit = 0
  case neg =>
    simp [hbf, hcp, hct, hA, effects_cons, effects_append, effects_prints_if, is_effect]
  by_cases hRs : w.resetExit = 0
  case neg =>
    simp [hbf, hcp, hct, hA, hRs, effects_cons, effects_append, effects_prints_if, is_effect]
  by_cases hCm : w.commitExit = 0
  case neg =>
    simp [hbf, hcp, hct, hA, hRs, hCm, effects_cons, effects_append, effects_prints_if,
      is_effect]
  cases d
  · by_cases hP : w.pushExit = 0 <;>
      simp [hbf, hcp, hct, hA, hRs, hCm, hP, effects_cons, effects_append,
        effects_prints_if, is_effect]
  · simp [hbf, hcp, hct, hA, hRs, hCm, effects_cons, effects_append, effects_prints_if,
      is_effect]

/-- The quiet flag changes none of the `try:` block's observables except
printed text. -/
theorem deploy_try_quiet (w : World) (p : String) (d : Bool) (config : ConfigDoc)
    (sha op : String) :
    (deploy_try w ⟨p, d, true⟩ config sha op).result
      = (deploy_try w ⟨p, d, false⟩ config sha op).result ∧
    effects (deploy_try w ⟨p, d, true⟩ config sha op).events
      = effects (deploy_try w ⟨p, d, false⟩ config sha op).events ∧
    (deploy_try w ⟨p, d, true⟩ config sha op).marker
      = (deploy_try w ⟨p, d, false⟩ config sha op).marker ∧
    (deploy_try w ⟨p, d, true⟩ config sha op).copied
      = (deploy_try w ⟨p, d, false⟩ config sha op).copied := by
  unfold deploy_try
  by_cases hI : w.initExit = 0
  case neg => simp [hI]
  rcases hdr : config.get "deploy-repo" with _ | dr
  · simp [hI, hdr]
  by_cases hR : w.remoteAddExit = 0
  case neg => simp [hI, hdr, hR]
  rcases hdb : config.get "deploy-branch" with _ | db
  · simp [hI, hdr, hR, hdb]
  by_cases hF : w.fetchExit = 0
  case neg => simp [hI, hdr, hR, hdb, hF]
  by_cases hC : w.checkoutExit = 0 <;> by_cases hCb : w.checkoutBExit = 0 <;>
    simp [hI, hdr, hR, hdb, hF, hC, hCb, deploy_try_tail_quiet]

/-- The quiet flag changes none of the staging phase's observables except
printed text. -/
theorem deploy_rest_quiet (w : World) (p : String) (d : Bool) (config : ConfigDoc)
    (sha : String) (t : List Ev) (builds : Nat) :
    (deploy_rest w ⟨p, d, true⟩ config sha t builds).outcome
      = (deploy_rest w ⟨p, d, false⟩ config sha t builds).outcome ∧
    effects (deploy_rest w ⟨p, d, true⟩ config sha t builds).trace
      = effects (deploy_rest w ⟨p, d, false⟩ config sha t builds).trace ∧
    (deploy_rest w ⟨p, d, true⟩ config sha t builds).stagingCreated
      = (deploy_rest w ⟨p, d, false⟩ config sha t builds).stagingCreated ∧
    (deploy_rest w ⟨p, d, true⟩ config sha t builds).stagingExists
      = (deploy_rest w ⟨p, d, false⟩ config sha t builds).stagingExists ∧
    (deploy_rest w ⟨p, d, true⟩ config sha t builds).markerOnDisk
      = (deploy_rest w ⟨p, d, false⟩ config sha t builds).markerOnDisk ∧
    (deploy_rest w ⟨p, d, true⟩ config sha t builds).entriesAfterCopy
      = (deploy_rest w ⟨p, d, false⟩ config sha t builds).entriesAfterCopy ∧
    (deploy_rest w ⟨p, d, true⟩ config sha t builds).buildInvocations
      = (deploy_rest w ⟨p, d, false⟩ config sha t builds).buildInvocations := by
  obtain ⟨hres, hev, hmark, hcop⟩ := deploy_try_quiet w p d config sha w.originalPath
  rcases h2 : (deploy_try w ⟨p, d, false⟩ config sha w.originalPath).result with _ | code | e
  · rw [h2] at hres
    simp [deploy_rest, hres, h2, hev, hmark, hcop, effects_append, effects_cons, is_effect]
  · rw [h2] at hres
    simp [deploy_rest, hres, h2, hev, hmark, hcop, effects_append, effects_cons, is_effect]
  · rw [h2] at hres
    rcases e with m | k <;>
      simp [deploy_rest, hres, h2, hev, hmark, hcop, effects_append, effects_cons, is_effect]

/-- Claim C10: the quiet flag does not influence behaviour beyond output.
For every world and every choice of config path and dry-run flag, running
`deploy` with quiet true and quiet false terminates the same way and performs
exactly the same external commands and filesystem mutations, with identical
final filesystem facts; only printed/logged text can differ. -/
theorem quiet_flag_influences_output_only (w : World) (p : String) (d : Bool) :
    (deploy w ⟨p, d, true⟩).outcome = (deploy w ⟨p, d, false⟩).outcome ∧
    effects (deploy w ⟨p, d, true⟩).trace = effects (deploy w ⟨p, d, false⟩).trace ∧
    (deploy w ⟨p, d, true⟩).stagingCreated = (deploy w ⟨p, d, false⟩).stagingCreated ∧
    (deploy w ⟨p, d, true⟩).stagingExists = (deploy w ⟨p, d, false⟩).stagingExists ∧
    (deploy w ⟨p, d, true⟩).markerOnDisk = (deploy w ⟨p, d, false⟩).markerOnDisk ∧
    (deploy w ⟨p, d, true⟩).entriesAfterCopy = (deploy w ⟨p, d, false⟩).entriesAfterCopy ∧
    (deploy w ⟨p, d, true⟩).buildInvocations = (deploy w ⟨p, d, false⟩).buildInvocations := by
  rcases hpc : parse_config w.cfg p with ⟨t, r⟩
  rcases r with e | config
  · simp [deploy, hpc]
  · by_cases hD : w.diffExit = 0
    case neg => simp [deploy, hpc, hD]
    rcases hbc : config.get "build-command" with _ | bc
    · simp [deploy, hpc, hD, hbc]
    by_cases hE : bc = ""
    · simp [deploy, hpc, hD, hbc, hE, deploy_rest_quiet]
    · by_cases hB : w.buildExit = 0
      · simp [deploy, hpc, hD, hbc, hE, hB, call_or_fail, deploy_rest_quiet]
      · simp [deploy, hpc, hD, hbc, hE, hB, call_or_fail]

/-- Claim C1: the spec (and the program's own dry-run output and CLI help)
say the staging directory is left intact in dry-run mode, but the `finally:`
clause of `deploy` deletes it unconditionally.  On a concrete dry run that
reaches the staging phase and completes: the run succeeds, a staging
directory was created, the trace even contains the print telling the user to
delete the folder by hand — yet the folder is recursively deleted before
`deploy` returns, so it no longer exists and the commit marker file is gone
with it. -/
theorem dry_run_staging_directory_deleted :
    (deploy base_world ⟨DEFAULT_CONFIG_PATH, true, false⟩).outcome = Outcome.ok ∧
    (deploy base_world ⟨DEFAULT_CONFIG_PATH, true, false⟩).stagingCreated = true ∧
    (deploy base_world ⟨DEFAULT_CONFIG_PATH, true, false⟩).stagingExists = false ∧
    (deploy base_world ⟨DEFAULT_CONFIG_PATH, true, false⟩).markerOnDisk = none ∧
    Ev.printOut "Delete the deploy folder when finished"
      ∈ (deploy base_world ⟨DEFAULT_CONFIG_PATH, true, false⟩).trace ∧
    Ev.rmtree "/tmp/arazu_deployab12"
      ∈ (deploy base_world ⟨DEFAULT_CONFIG_PATH, true, false⟩).trace :=
  ⟨rfl, rfl, rfl, rfl, by decide, by decide⟩

/-- Claim C2 counterexample: `parse_config` does not fill absent fields with
the template's defaults.  A document without `source-branch` parses and
validates, and the returned config still has no `source-branch`, while the
template's default for it is "master". -/
theorem load_does_not_fill_absent_fields :
    (parse_config ⟨true, true, some c2_doc⟩ DEFAULT_CONFIG_PATH).2 = Except.ok c2_doc ∧
    c2_doc.get "source-branch" = none ∧
    config_template.get "source-branch" = some "master" :=
  ⟨rfl, rfl, rfl⟩

/-- Claim C2 as amended: for every document that parses and passes the
placeholder validation, `load` returns the parsed document exactly as it
was parsed — no defaults are applied to fields absent from the document. -/
theorem load_returns_document_as_parsed (w : ConfigWorld) (path : String) (c : ConfigDoc)
    (h1 : w.pathExists = true) (h2 : w.openOk = true) (h3 : w.parseResult = some c)
    (h4 : validate_not_default c required_fields = ([], none)) :
    parse_config w path = ([], Except.ok c) := by
  simp [parse_config, h1, h2, h3, h4]

/-- Witness for `load_returns_document_as_parsed` at a concrete document. -/
theorem load_returns_document_as_parsed_witness :
    parse_config ⟨true, true, some good_config⟩ DEFAULT_CONFIG_PATH
      = ([], Except.ok good_config) :=
  load_returns_document_as_parsed ⟨true, true, some good_config⟩ DEFAULT_CONFIG_PATH
    good_config rfl rfl rfl rfl

/-- Claim C3 counterexample: when resolving the source HEAD fails (rev-parse
prints nothing), `deploy` does not fail — the run completes, commits a
message whose SHA field is empty, and pushes it. -/
theorem empty_sha_run_still_pushes :
    (deploy c3_world ⟨DEFAULT_CONFIG_PATH, false, false⟩).outcome = Outcome.ok ∧
    Ev.writeFile COMMIT_MESSAGE_FILEPATH "Deploy 2026-10-12 10:00:00.000000\n\nSHA: \n"
      ∈ (deploy c3_world ⟨DEFAULT_CONFIG_PATH, false, false⟩).trace ∧
    Ev.shell "git push deploy gh-pages"
      ∈ (deploy c3_world ⟨DEFAULT_CONFIG_PATH, false, false⟩).trace :=
  ⟨rfl, by decide, by decide⟩

/-- Claim C3 as amended: `deploy` never checks the result of
`git rev-parse HEAD`; whatever its stdout is — including nothing at all —
the run's outcome is unchanged and the (possibly empty) stripped string is
interpolated into the commit message. -/
theorem head_sha_failure_not_fatal (s : String) :
    (deploy { base_world with revParseLine := s }
        ⟨DEFAULT_CONFIG_PATH, false, false⟩).outcome = Outcome.ok ∧
    (deploy { base_world with revParseLine := s, rmtreeOk := false }
        ⟨DEFAULT_CONFIG_PATH, true, false⟩).markerOnDisk
      = some (format_commit "Deploy {date}\n\nSHA: {sha}\n" (strip s)
          "2026-10-12 10:00:00.000000") :=
  ⟨rfl, rfl⟩

/-- Claim C4 counterexample: the copy step runs `cp -r <build-folder>/* .`
through the shell, and the `*` glob does not match hidden files, so a hidden
file present in the build folder does not appear at the staging root after
the step. -/
theorem copy_step_skips_hidden_file :
    ".htaccess" ∈ c4_world.buildEntries ∧
    (deploy c4_world ⟨DEFAULT_CONFIG_PATH, false, false⟩).entriesAfterCopy
      = some ["index.html"] ∧
    ".htaccess" ∉ (["index.html"] : List String) :=
  ⟨by decide, rfl, by decide⟩

/-- Claim C5: with a valid configuration, a dirty working tree makes `deploy`
abort with the local-changes message before the build command is ever
invoked: the build-invocation count is 0 and no staging directory was
created. -/
theorem dirty_tree_aborts_before_build (w : World) (a : Args) (c : ConfigDoc)
    (h1 : w.cfg.pathExists = true) (h2 : w.cfg.openOk = true)
    (h3 : w.cfg.parseResult = some c)
    (h4 : validate_not_default c required_fields = ([], none))
    (h5 : w.diffExit ≠ 0) :
    (deploy w a).outcome = Outcome.exc (PyErr.abortError
      "arazu cannot deploy with local changes - commit everything and try again") ∧
    (deploy w a).buildInvocations = 0 ∧
    (deploy w a).stagingCreated = false := by
  simp [deploy, parse_config, h1, h2, h3, h4, h5, abort]

/-- Witness for `dirty_tree_aborts_before_build` at a concrete world. -/
theorem dirty_tree_aborts_before_build_witness :
    (deploy c5_world ⟨DEFAULT_CONFIG_PATH, false, false⟩).outcome
      = Outcome.exc (PyErr.abortError
        "arazu cannot deploy with local changes - commit everything and try again") ∧
    (deploy c5_world ⟨DEFAULT_CONFIG_PATH, false, false⟩).buildInvocations = 0 ∧
    (deploy c5_world ⟨DEFAULT_CONFIG_PATH, false, false⟩).stagingCreated = false :=
  dirty_tree_aborts_before_build c5_world ⟨DEFAULT_CONFIG_PATH, false, false⟩
    good_config rfl rfl rfl rfl (by decide)

/-- Claim C6: when the build command fails (any non-zero exit code), the run
terminates via `sys.exit(1)`, no staging directory has been created, and the
whole trace is exactly the dirty-tree check, the HEAD resolution and the
build command — in particular no staging or deploy-remote command (init,
remote add, fetch, commit, push) has run. -/
theorem build_failure_stops_run (w : World) (a : Args) (c : ConfigDoc) (bc : String)
    (h1 : w.cfg.pathExists = true) (h2 : w.cfg.openOk = true)
    (h3 : w.cfg.parseResult = some c)
    (h4 : validate_not_default c required_fields = ([], none))
    (h5 : w.diffExit = 0)
    (h6 : c.get "build-command" = some bc) (h7 : bc ≠ "")
    (h8 : w.buildExit ≠ 0) :
    (deploy w a).outcome = Outcome.sysExit 1 ∧
    (deploy w a).stagingCreated = false ∧
    (deploy w a).trace =
      [Ev.logInfo "checking for local changes",
       Ev.shell "git diff --no-ext-diff --quiet --exit-code",
       Ev.logInfo "generating commit message",
       Ev.popen ["git", "rev-parse", "HEAD"],
       Ev.logInfo ("running build command \"" ++ bc ++ "\""),
       Ev.shell bc] := by
  simp [deploy, parse_config, call_or_fail, h1, h2, h3, h4, h5, h6, h7, h8]

/-- Witness for `build_failure_stops_run` at a concrete world. -/
theorem build_failure_stops_run_witness :
    (deploy c6_world ⟨DEFAULT_CONFIG_PATH, false, false⟩).outcome = Outcome.sysExit 1 ∧
    (deploy c6_world ⟨DEFAULT_CONFIG_PATH, false, false⟩).stagingCreated = false ∧
    (deploy c6_world ⟨DEFAULT_CONFIG_PATH, false, false⟩).trace =
      [Ev.logInfo "checking for local changes",
       Ev.shell "git diff --no-ext-diff --quiet --exit-code",
       Ev.logInfo "generating commit message",
       Ev.popen ["git", "rev-parse", "HEAD"],
       Ev.logInfo ("running build command \"" ++ "make build" ++ "\""),
       Ev.shell "make build"] :=
  build_failure_stops_run c6_world ⟨DEFAULT_CONFIG_PATH, false, false⟩
    good_config "make build" rfl rfl rfl rfl rfl rfl (by decide) (by decide)

/-- If every required field is present and `f` is the first one equal to the
template's placeholder, `validate_not_default` aborts naming exactly `f`. -/
theorem validate_first_offending (c : ConfigDoc) (f : String)
    (hp : ∀ g ∈ required_fields, (c.get g).isSome = true)
    (hf : first_offending c = some f) :
    validate_not_default c required_fields =
      ([Ev.logError ("ERROR - " ++ ("invalid config - you must set the " ++ f ++ " value"))],
       some (PyErr.abortError ("invalid config - you must set the " ++ f ++ " value"))) := by
  have h1 := hp "build-command" (by simp [required_fields])
  have h2 := hp "build-folder" (by simp [required_fields])
  have h3 := hp "source-repo" (by simp [required_fields])
  have h4 := hp "deploy-repo" (by simp [required_fields])
  simp [ConfigDoc.get] at h1 h2 h3 h4
  rcases ho1 : c.build_command with _ | v1
  · simp [ho1] at h1
  rcases ho2 : c.build_folder with _ | v2
  · simp [ho2] at h2
  rcases ho3 : c.source_repo with _ | v3
  · simp [ho3] at h3
  rcases ho4 : c.deploy_repo with _ | v4
  · simp [ho4] at h4
  simp only [first_offending, required_fields, List.find?, ConfigDoc.get,
    config_template, ho1, ho2, ho3, ho4] at hf
  by_cases hv1 : v1 = "fill this in"
  · simp [hv1] at hf
    subst hf
    simp [validate_not_default, required_fields, ConfigDoc.get, config_template,
      ho1, hv1, abort]
  · have hb1 : (v1 == "fill this in") = false := by simp [hv1]
    by_cases hv2 : v2 = "fill this in"
    · simp [hb1, hv2] at hf
      subst hf
      simp [validate_not_default, required_fields, ConfigDoc.get, config_template,
        ho1, ho2, hv1, hv2, abort]
    · have hb2 : (v2 == "fill this in") = false := by simp [hv2]
      by_cases hv3 : v3 = "fill this in - no branch name"
      · simp [hb1, hb2, hv3] at hf
        subst hf
        simp [validate_not_default, required_fields, ConfigDoc.get, config_template,
          ho1, ho2, ho3, hv1, hv2, hv3, abort]
      · have hb3 : (v3 == "fill this in - no branch name") = false := by simp [hv3]
        by_cases hv4 : v4 = "fill this in - no branch name"
        · simp [hb1, hb2, hb3, hv4] at hf
          subst hf
          simp [validate_not_default, required_fields, ConfigDoc.get, config_template,
            ho1, ho2, ho3, ho4, hv1, hv2, hv3, hv4, abort]
        · have hb4 : (v4 == "fill this in - no branch name") = false := by simp [hv4]
          simp [hb1, hb2, hb3, hb4] at hf


/-- Claim C7: a configuration document in which any required field still
equals the shipped template's placeholder is rejected by the loader: the run
raises the invalid-config abort naming the first offending field (in check
order), the only event is the corresponding "ERROR - " log line, and no
later lifecycle step runs (no staging, no build invocation). -/
theorem placeholder_field_rejected (w : World) (a : Args) (c : ConfigDoc) (f : String)
    (h1 : w.cfg.pathExists = true) (h2 : w.cfg.openOk = true)
    (h3 : w.cfg.parseResult = some c)
    (hp : ∀ g ∈ required_fields, (c.get g).isSome = true)
    (hf : first_offending c = some f) :
    (deploy w a).outcome = Outcome.exc (PyErr.abortError
      ("invalid config - you must set the " ++ f ++ " value")) ∧
    (deploy w a).trace =
      [Ev.logError ("ERROR - " ++ ("invalid config - you must set the " ++ f ++ " value"))] ∧
    (deploy w a).stagingCreated = false ∧
    (deploy w a).buildInvocations = 0 := by
  have hv := validate_first_offending c f hp hf
  simp [deploy, parse_config, h1, h2, h3, hv]

/-- Witness for `placeholder_field_rejected` at a concrete document. -/
theorem placeholder_field_rejected_witness :
    (deploy { base_world with cfg := ⟨true, true, some c7_doc⟩ }
        ⟨DEFAULT_CONFIG_PATH, false, false⟩).outcome
      = Outcome.exc (PyErr.abortError
        ("invalid config - you must set the " ++ "build-folder" ++ " value")) ∧
    (deploy { base_world with cfg := ⟨true, true, some c7_doc⟩ }
        ⟨DEFAULT_CONFIG_PATH, false, false⟩).trace
      = [Ev.logError ("ERROR - " ++ ("invalid config - you must set the "
          ++ "build-folder" ++ " value"))] ∧
    (deploy { base_world with cfg := ⟨true, true, some c7_doc⟩ }
        ⟨DEFAULT_CONFIG_PATH, false, false⟩).stagingCreated = false ∧
    (deploy { base_world with cfg := ⟨true, true, some c7_doc⟩ }
        ⟨DEFAULT_CONFIG_PATH, false, false⟩).buildInvocations = 0 :=
  placeholder_field_rejected { base_world with cfg := ⟨true, true, some c7_doc⟩ }
    ⟨DEFAULT_CONFIG_PATH, false, false⟩ c7_doc "build-folder"
    rfl rfl rfl (by decide) (by decide)

/-- Claim C8: `init` writes the shipped template verbatim, and loading a file
that parses to exactly that template always fails validation (its
`build-command` is the placeholder, the first field checked), for either
value of the quiet flag. -/
theorem init_then_load_fails_validation (q : Bool) :
    (create_config ⟨false, true⟩ q).written = some CONFIG_TEMPLATE_RAW ∧
    (parse_config ⟨true, true, some config_template⟩ DEFAULT_CONFIG_PATH).2 =
      Except.error (PyErr.abortError
        "invalid config - you must set the build-command value") :=
  ⟨rfl, rfl⟩

/-- Under a valid config, clean tree and successful build, `deploy` reaches
the staging phase. -/
theorem deploy_reaches_rest (w : World) (a : Args) (c : ConfigDoc) (bc : String)
    (h1 : w.cfg.pathExists = true) (h2 : w.cfg.openOk = true)
    (h3 : w.cfg.parseResult = some c)
    (h4 : validate_not_default c required_fields = ([], none))
    (h5 : w.diffExit = 0)
    (h6 : c.get "build-command" = some bc) (h7 : w.buildExit = 0) :
    ∃ t n, deploy w a = deploy_rest w a c (strip w.revParseLine) t n := by
  by_cases hbc : bc = ""
  · refine ⟨[Ev.logInfo "checking for local changes",
       Ev.shell "git diff --no-ext-diff --quiet --exit-code",
       Ev.logInfo "generating commit message",
       Ev.popen ["git", "rev-parse", "HEAD"],
       Ev.logInfo ("running build command \"" ++ bc ++ "\"")], 0, ?_⟩
    simp [deploy, parse_config, h1, h2, h3, h4, h5, h6, hbc]
  · refine ⟨[Ev.logInfo "checking for local changes",
       Ev.shell "git diff --no-ext-diff --quiet --exit-code",
       Ev.logInfo "generating commit message",
       Ev.popen ["git", "rev-parse", "HEAD"],
       Ev.logInfo ("running build command \"" ++ bc ++ "\""),
       Ev.shell bc], 1, ?_⟩
    simp [deploy, parse_config, call_or_fail, h1, h2, h3, h4, h5, h6, h7, hbc]

/-- The staging-root entries recorded after the copy step are whatever the
`try:` block produced. -/
theorem deploy_rest_entriesAfterCopy (w : World) (a : Args) (c : ConfigDoc)
    (sha : String) (t : List Ev) (n : Nat) :
    (deploy_rest w a c sha t n).entriesAfterCopy
      = (deploy_try w a c sha w.originalPath).copied := rfl

/-- Every event of the `try:` block appears in the final trace. -/
theorem deploy_rest_mem_trace (w : World) (a : Args) (c : ConfigDoc)
    (sha : String) (t : List Ev) (n : Nat) (x : Ev)
    (hx : x ∈ (deploy_try w a c sha w.originalPath).events) :
    x ∈ (deploy_rest w a c sha t n).trace := by
  rcases h : (deploy_try w a c sha w.originalPath).result with _ | code | e
  · simp [deploy_rest, h, hx]
  · simp [deploy_rest, h, hx]
  · rcases e with m | k <;> simp [deploy_rest, h, hx]

/-- When repository setup and the branch checkout succeed, the `try:` block
reaches its copy phase. -/
theorem deploy_try_reaches_tail (w : World) (a : Args) (c : ConfigDoc)
    (sha op dr db : String)
    (hI : w.initExit = 0) (hdr : c.get "deploy-repo" = some dr)
    (hR : w.remoteAddExit = 0) (hdb : c.get "deploy-branch" = some db)
    (hF : w.fetchExit = 0) (hC : w.checkoutExit = 0) :
    ∃ t, deploy_try w a c sha op = deploy_try_tail w a c sha op db t := by
  refine ⟨[Ev.logInfo "setting up repository", Ev.shell "git init",
     Ev.logInfo "adding deploy remote",
     Ev.shell ("git remote add deploy " ++ dr),
     Ev.logInfo ("setting branch \"" ++ db ++ "\""),
     Ev.shell "git fetch deploy",
     Ev.shell ("git checkout " ++ db)], ?_⟩
  simp [deploy_try, hI, hdr, hR, hdb, hF, hC]

/-- When the copy command succeeds, the staging root receives exactly the
glob-matched entries of the build folder, whatever happens later. -/
theorem deploy_try_tail_copied (w : World) (a : Args) (c : ConfigDoc)
    (sha op db : String) (t : List Ev) (bf : String)
    (hbf : c.get "build-folder" = some bf) (hcp : w.cpExit = 0) :
    (deploy_try_tail w a c sha op db t).copied = some (glob_star w.buildEntries) ∧
    Ev.shell ("cp -r " ++ path_join (path_join op bf) "*" ++ " .")
      ∈ (deploy_try_tail w a c sha op db t).events := by
  unfold deploy_try_tail
  rcases hct : c.get "commit-template" with _ | ct
  · simp [hbf, hcp, hct]
  · by_cases hA : w.addExit = 0
    case neg => simp [hbf, hcp, hct, hA]
    by_cases hRs : w.resetExit = 0
    case neg => simp [hbf, hcp, hct, hA, hRs]
    by_cases hCm : w.commitExit = 0
    case neg => simp [hbf, hcp, hct, hA, hRs, hCm]
    cases hd : a.dry_run
    · by_cases hP : w.pushExit = 0 <;> simp [hbf, hcp, hct, hA, hRs, hCm, hd, hP]
    · simp [hbf, hcp, hct, hA, hRs, hCm, hd]

/-- Claim C4 as amended: the copy step resolves `build-folder` against the
original invocation directory and copies exactly the glob-visible (non-
hidden) top-level entries of the build folder to the staging root: every
non-hidden entry appears there, everything there comes from inside the build
folder (so the build folder itself never appears as a subdirectory), and
hidden entries are excluded. -/
theorem copy_step_copies_visible_contents (w : World) (a : Args) (c : ConfigDoc)
    (bc dr db bf : String)
    (h1 : w.cfg.pathExists = true) (h2 : w.cfg.openOk = true)
    (h3 : w.cfg.parseResult = some c)
    (h4 : validate_not_default c required_fields = ([], none))
    (h5 : w.diffExit = 0)
    (h6 : c.get "build-command" = some bc) (h7 : w.buildExit = 0)
    (hI : w.initExit = 0) (hdr : c.get "deploy-repo" = some dr)
    (hR : w.remoteAddExit = 0) (hdb : c.get "deploy-branch" = some db)
    (hF : w.fetchExit = 0) (hC : w.checkoutExit = 0)
    (hbf : c.get "build-folder" = some bf) (hcp : w.cpExit = 0) :
    (deploy w a).entriesAfterCopy = some (glob_star w.buildEntries) ∧
    Ev.shell ("cp -r " ++ path_join (path_join w.originalPath bf) "*" ++ " .")
      ∈ (deploy w a).trace ∧
    (∀ e ∈ w.buildEntries, starts_with_char '.' e = false → e ∈ glob_star w.buildEntries) ∧
    (∀ e ∈ glob_star w.buildEntries, e ∈ w.buildEntries ∧ starts_with_char '.' e = false) := by
  obtain ⟨t, n, hdep⟩ := deploy_reaches_rest w a c bc h1 h2 h3 h4 h5 h6 h7
  obtain ⟨t5, htry⟩ := deploy_try_reaches_tail w a c (strip w.revParseLine)
    w.originalPath dr db hI hdr hR hdb hF hC
  obtain ⟨hcop, hmem⟩ := deploy_try_tail_copied w a c (strip w.revParseLine)
    w.originalPath db t5 bf hbf hcp
  refine ⟨?_, ?_, ?_, ?_⟩
  · rw [hdep, deploy_rest_entriesAfterCopy, htry, hcop]
  · rw [hdep]
    exact deploy_rest_mem_trace w a c (strip w.revParseLine) t n _
      (by rw [htry]; exact hmem)
  · intro e he hs
    simp [glob_star, List.mem_filter, he, hs]
  · intro e he
    simp [glob_star, List.mem_filter] at he
    exact ⟨he.1, by simpa using he.2⟩

/-- Witness for `copy_step_copies_visible_contents` at a concrete world. -/
theorem copy_step_copies_visible_contents_witness :
    (deploy c4_world ⟨DEFAULT_CONFIG_PATH, false, false⟩).entriesAfterCopy
      = some (glob_star c4_world.buildEntries) ∧
    Ev.shell ("cp -r " ++ path_join (path_join c4_world.originalPath "dist") "*" ++ " .")
      ∈ (deploy c4_world ⟨DEFAULT_CONFIG_PATH, false, false⟩).trace :=
  ⟨(copy_step_copies_visible_contents c4_world ⟨DEFAULT_CONFIG_PATH, false, false⟩
      good_config "make build" "git@example.com:site-deploy" "gh-pages" "dist"
      rfl rfl rfl rfl rfl rfl rfl rfl rfl rfl rfl rfl rfl rfl rfl).1,
   (copy_step_copies_visible_contents c4_world ⟨DEFAULT_CONFIG_PATH, false, false⟩
      good_config "make build" "git@example.com:site-deploy" "gh-pages" "dist"
      rfl rfl rfl rfl rfl rfl rfl rfl rfl rfl rfl rfl rfl rfl rfl).2.1⟩

/-- Claim C9 counterexample: a fatal push failure terminates the process with
exit code 1 without printing or logging any message carrying the "ERROR - "
marker. -/
theorem call_or_fail_failure_prints_no_error :
    (deploy c9_world ⟨DEFAULT_CONFIG_PATH, false, false⟩).outcome = Outcome.sysExit 1 ∧
    has_error_message (deploy c9_world ⟨DEFAULT_CONFIG_PATH, false, false⟩).trace = false :=
  ⟨rfl, rfl⟩

theorem error_logs_append (s t : List Ev) :
    error_logs (s ++ t) = error_logs s ++ error_logs t := by
  simp [error_logs, List.filter_append]

theorem error_logs_cons (e : Ev) (t : List Ev) :
    error_logs (e :: t) = if is_error_log e then e :: error_logs t else error_logs t := by
  simp [error_logs, List.filter_cons]

theorem error_logs_prints_if (b : Bool) (l : List String) :
    error_logs (prints_if b l) = [] := by
  cases b
  · rfl
  · induction l with
    | nil => rfl
    | cons h t ih => simp [prints_if, error_logs, is_error_log] at ih ⊢

/-- When validation aborts, the abort's "ERROR - " log line is in its
events. -/
theorem validate_abort_mem (c : ConfigDoc) (fields : List String) (t : List Ev) (m : String)
    (h : validate_not_default c fields = (t, some (PyErr.abortError m))) :
    Ev.logError ("ERROR - " ++ m) ∈ t := by
  induction fields generalizing t with
  | nil => simp [validate_not_default] at h
  | cons f rest ih =>
    unfold validate_not_default at h
    rcases hcf : c.get f with _ | v
    · simp [hcf] at h
    rcases hct : config_template.get f with _ | tv
    · simp [hcf, hct] at h
    by_cases hv : v = tv
    · simp [hcf, hct, hv, abort, Prod.ext_iff] at h
      obtain ⟨ht, hm⟩ := h
      subst hm
      simp [← ht]
    · simp only [hcf, hct, if_neg hv] at h
      exact ih t h

/-- When the loader aborts, the abort's "ERROR - " log line is in its
events. -/
theorem parse_config_abort_mem (w : ConfigWorld) (p : String) (t : List Ev) (m : String)
    (h : parse_config w p = (t, Except.error (PyErr.abortError m))) :
    Ev.logError ("ERROR - " ++ m) ∈ t := by
  unfold parse_config at h
  by_cases h1 : w.pathExists
  case neg =>
    simp [h1, abort, Prod.ext_iff] at h
    obtain ⟨ht, hm⟩ := h
    subst hm
    simp [← ht]
  by_cases h2 : w.openOk
  case neg =>
    simp [h1, h2, abort, Prod.ext_iff] at h
    obtain ⟨ht, hm⟩ := h
    subst hm
    simp [← ht]
  rcases h3 : w.parseResult with _ | c
  · simp [h1, h2, h3, abort, Prod.ext_iff] at h
    obtain ⟨ht, hm⟩ := h
    subst hm
    simp [← ht]
  · simp only [h1, h2, h3] at h
    rcases h4 : validate_not_default c required_fields with ⟨tv, e⟩
    rcases e with _ | e
    · rw [h4] at h
      simp at h
    · rw [h4] at h
      simp [Prod.ext_iff] at h
      obtain ⟨ht, hm⟩ := h
      subst ht hm
      exact validate_abort_mem c required_fields _ _ h4

/-- A successful load emits no events. -/
theorem parse_config_ok_events (w : ConfigWorld) (p : String) (t : List Ev) (c : ConfigDoc)
    (h : parse_config w p = (t, Except.ok c)) : t = [] := by
  unfold parse_config at h
  by_cases h1 : w.pathExists
  case neg => simp [h1, abort] at h
  by_cases h2 : w.openOk
  case neg => simp [h1, h2, abort] at h
  rcases h3 : w.parseResult with _ | c2
  · simp [h1, h2, h3, abort] at h
  · simp only [h1, h2, h3] at h
    rcases h4 : validate_not_default c2 required_fields with ⟨tv, e⟩
    rcases e with _ | e
    · rw [h4] at h
      simp [Prod.ext_iff] at h
      have := validate_ok_events c2 required_fields (by rw [h4])
      rw [h4] at this
      obtain ⟨ht, _⟩ := h
      subst ht
      exact (Prod.mk.injEq .. ▸ this).1.symm ▸ rfl
    · rw [h4] at h
      simp at h

/-- The staging phase never terminates with an `AbortError`: nothing in the
`try:` block raises one, and one caught by the `except:` clause is swallowed. -/
theorem deploy_rest_no_abort_outcome (w : World) (a : Args) (c : ConfigDoc)
    (sha : String) (t : List Ev) (n : Nat) (m : String) :
    (deploy_rest w a c sha t n).outcome ≠ Outcome.exc (PyErr.abortError m) := by
  rcases h : (deploy_try w a c sha w.originalPath).result with _ | code | e
  · simp [deploy_rest, h]
  · simp [deploy_rest, h]
  · rcases e with m2 | k <;> simp [deploy_rest, h]

theorem error_logs_nil : error_logs [] = [] := rfl

/-- The copy-and-commit phase adds no error-level log lines. -/
theorem deploy_try_tail_error_logs (w : World) (a : Args) (c : ConfigDoc)
    (sha op db : String) (t : List Ev) :
    error_logs (deploy_try_tail w a c sha op db t).events = error_logs t := by
  unfold deploy_try_tail
  rcases hbf : c.get "build-folder" with _ | bf
  · simp [hbf]
  by_cases hcp : w.cpExit = 0
  case neg =>
    simp [hbf, hcp, error_logs_append, error_logs_cons, is_error_log, error_logs_nil]
  rcases hct : c.get "commit-template" with _ | ct
  · simp [hbf, hcp, hct, error_logs_append, error_logs_cons, is_error_log, error_logs_nil]
  by_cases hA : w.addExit = 0
  case neg =>
    simp [hbf, hcp, hct, hA, error_logs_append, error_logs_cons, error_logs_prints_if,
      is_error_log, error_logs_nil]
  by_cases hRs : w.resetExit = 0
  case neg =>
    simp [hbf, hcp, hct, hA, hRs, error_logs_append, error_logs_cons, error_logs_prints_if,
      is_error_log, error_logs_nil]
  by_cases hCm : w.commitExit = 0
  case neg =>
    simp [hbf, hcp, hct, hA, hRs, hCm, error_logs_append, error_logs_cons,
      error_logs_prints_if, is_error_log, error_logs_nil]
  cases hd : a.dry_run
  · by_cases hP : w.pushExit = 0 <;>
      simp [hbf, hcp, hct, hA, hRs, hCm, hd, hP, error_logs_append, error_logs_cons,
        error_logs_prints_if, is_error_log, error_logs_nil]
  · simp [hbf, hcp, hct, hA, hRs, hCm, hd, error_logs_append, error_logs_cons,
      error_logs_prints_if, is_error_log, error_logs_nil]

/-- The `try:` block emits no error-level log lines at all. -/
theorem deploy_try_error_logs (w : World) (a : Args) (c : ConfigDoc) (sha op : String) :
    error_logs (deploy_try w a c sha op).events = [] := by
  unfold deploy_try
  by_cases hI : w.initExit = 0
  case neg => simp [hI, error_logs_cons, is_error_log, error_logs_nil]
  rcases hdr : c.get "deploy-repo" with _ | dr
  · simp [hI, hdr, error_logs_append, error_logs_cons, is_error_log, error_logs_nil]
  by_cases hR : w.remoteAddExit = 0
  case neg => simp [hI, hdr, hR, error_logs_append, error_logs_cons, is_error_log, error_logs_nil]
  rcases hdb : c.get "deploy-branch" with _ | db
  · simp [hI, hdr, hR, hdb, error_logs_append, error_logs_cons, is_error_log, error_logs_nil]
  by_cases hF : w.fetchExit = 0
  case neg =>
    simp [hI, hdr, hR, hdb, hF, error_logs_append, error_logs_cons, is_error_log, error_logs_nil]
  by_cases hC : w.checkoutExit = 0 <;> by_cases hCb : w.checkoutBExit = 0 <;>
    simp [hI, hdr, hR, hdb, hF, hC, hCb, deploy_try_tail_error_logs,
      error_logs_append, error_logs_cons, is_error_log, error_logs_nil]

/-- A staging phase that ends in `sys.exit(1)` adds no error-level log lines
when the cleanup deletion succeeds. -/
theorem deploy_rest_sysexit_error_logs (w : World) (a : Args) (c : ConfigDoc)
    (sha : String) (t : List Ev) (n : Nat)
    (hrm : w.rmtreeOk = true)
    (h : (deploy_rest w a c sha t n).outcome = Outcome.sysExit 1) :
    error_logs (deploy_rest w a c sha t n).trace = error_logs t := by
  have hev := deploy_try_error_logs w a c sha w.originalPath
  rcases hres : (deploy_try w a c sha w.originalPath).result with _ | code | e
  · simp [deploy_rest, hres] at h
  · simp [deploy_rest, hres, hrm, error_logs_append, error_logs_cons, is_error_log, hev,
      error_logs_nil]
  · rcases e with m | k
    · simp [deploy_rest, hres] at h
    · simp [deploy_rest, hres] at h

/-- Claim C9 as amended: fatal errors raised through `abort` (configuration
errors and the dirty working tree) do log a message with the "ERROR - "
marker, but fatal failures of external commands (build, git, cp — routed
through `call_or_fail` and `sys.exit(1)`) terminate the run without any
error-level log line at all (when the cleanup deletion succeeds), so those
stages print no "ERROR - " message. -/
theorem fatal_error_reporting (w : World) (a : Args) (m : String) :
    ((deploy w a).outcome = Outcome.exc (PyErr.abortError m) →
      Ev.logError ("ERROR - " ++ m) ∈ (deploy w a).trace) ∧
    (w.rmtreeOk = true → (deploy w a).outcome = Outcome.sysExit 1 →
      error_logs (deploy w a).trace = []) := by
  rcases hpc : parse_config w.cfg a.config with ⟨t, r⟩
  rcases r with e | config
  · constructor
    · intro h
      simp only [deploy, hpc] at h ⊢
      rcases e with m2 | k
      · simp at h
        subst h
        exact parse_config_abort_mem w.cfg a.config t _ hpc
      · simp at h
    · intro _ h
      simp only [deploy, hpc] at h
      simp at h
  · have ht : t = [] := parse_config_ok_events w.cfg a.config t config hpc
    subst ht
    by_cases hD : w.diffExit = 0
    case neg =>
      constructor
      · intro h
        simp [deploy, hpc, hD, abort] at h
        subst h
        simp [deploy, hpc, hD, abort]
      · intro _ h
        simp [deploy, hpc, hD, abort] at h
    rcases hbc : config.get "build-command" with _ | bc
    · constructor
      · intro h
        simp [deploy, hpc, hD, hbc] at h
      · intro _ h
        simp [deploy, hpc, hD, hbc] at h
    by_cases hE : bc = ""
    · have hred : deploy w a = deploy_rest w a config (strip w.revParseLine)
          ([Ev.logInfo "checking for local changes",
            Ev.shell "git diff --no-ext-diff --quiet --exit-code",
            Ev.logInfo "generating commit message",
            Ev.popen ["git", "rev-parse", "HEAD"],
            Ev.logInfo ("running build command \"" ++ bc ++ "\"")]) 0 := by
        simp [deploy, hpc, hD, hbc, hE]
      rw [hred]
      constructor
      · intro h
        exact absurd h (deploy_rest_no_abort_outcome w a config _ _ _ m)
      · intro hrm h
        rw [deploy_rest_sysexit_error_logs w a config _ _ _ hrm h]
        simp [error_logs_cons, is_error_log, error_logs_nil]
    · by_cases hB : w.buildExit = 0
      · have hred : deploy w a = deploy_rest w a config (strip w.revParseLine)
            ([Ev.logInfo "checking for local changes",
              Ev.shell "git diff --no-ext-diff --quiet --exit-code",
              Ev.logInfo "generating commit message",
              Ev.popen ["git", "rev-parse", "HEAD"],
              Ev.logInfo ("running build command \"" ++ bc ++ "\""),
              Ev.shell bc]) 1 := by
          simp [deploy, hpc, hD, hbc, hE, hB, call_or_fail]
        rw [hred]
        constructor
        · intro h
          exact absurd h (deploy_rest_no_abort_outcome w a config _ _ _ m)
        · intro hrm h
          rw [deploy_rest_sysexit_error_logs w a config _ _ _ hrm h]
          simp [error_logs_cons, is_error_log, error_logs_nil]
      · constructor
        · intro h
          simp [deploy, hpc, hD, hbc, hE, hB, call_or_fail] at h
        · intro _ _
          simp [deploy, hpc, hD, hbc, hE, hB, call_or_fail, error_logs_cons,
            is_error_log, error_logs_nil]

/-- Witness for `fatal_error_reporting`: the dirty-tree abort logs its
"ERROR - " line, and a failed push leaves no error-level log line. -/
theorem fatal_error_reporting_witness :
    Ev.logError ("ERROR - "
        ++ "arazu cannot deploy with local changes - commit everything and try again")
      ∈ (deploy c5_world ⟨DEFAULT_CONFIG_PATH, false, false⟩).trace ∧
    error_logs (deploy c9_world ⟨DEFAULT_CONFIG_PATH, false, false⟩).trace = [] :=
  ⟨(fatal_error_reporting c5_world ⟨DEFAULT_CONFIG_PATH, false, false⟩
      "arazu cannot deploy with local changes - commit everything and try again").1
      (by decide),
   (fatal_error_reporting c9_world ⟨DEFAULT_CONFIG_PATH, false, false⟩ "x").2
      rfl (by decide)⟩

end Arazu
